import Mathlib

/-!
Shallow embedding of the goxp-client-server-api repository
(src/server/server.go and src/client/client.go) and proofs about it.

The server exposes GET /cotacao: it fetches a USD-BRL quotation from an
upstream API under a request-timeout-derived context, decodes the JSON body,
persists the quotation to a SQLite table under a database-timeout-derived
context, and answers 200 with the bid, or 500 with an ErrorResponse.
The client makes one GET to the server, appends the bid to cotacao.txt on
200, and dies reporting the error otherwise.

External effects (the upstream HTTP call, the SQLite statement execution,
the JSON encoder writing to the wire, the local file system) are modelled
as environment records chosen adversarially; the handler and client logic
is translated line by line from the Go source.  Times and durations are
nanosecond counts (Nat); the non-negative range is the one exercised by
the flag defaults 200ms and 10ms.  The literal message strings are taken
byte-for-byte from the source: server.go contains mojibake question marks
(requisi????o), client.go proper UTF-8.
-/

namespace GoxpCotacao

/-! ## Data model (server.go lines 204-229, client.go lines 103-110) -/

/-- Go struct Quotation (server.go lines 217-229): eleven string fields with
their JSON tags code, codein, name, high, low, varBid, pctChange, bid, ask,
timestamp, create_date. -/
structure Quotation where
  code : String
  codeIn : String
  name : String
  high : String
  low : String
  varBid : String
  pctChange : String
  bid : String
  ask : String
  timestamp : String
  createDate : String
deriving Repr, DecidableEq

/-- The zero value of Quotation: every field is the empty string. -/
def Quotation.empty : Quotation :=
  ⟨"", "", "", "", "", "", "", "", "", "", ""⟩

/-- Go struct QuotationResponse (server.go lines 209-211): the single field
bid, JSON tag bid. -/
structure QuotationResponse where
  bid : String
deriving Repr, DecidableEq

/-- Go struct ErrorResponse of the server variant (server.go lines 204-207):
JSON tags error and status_code.  The client decodes the same shape
(client.go lines 103-106). -/
structure ErrorResponse where
  error : String
  statusCode : Int
deriving Repr, DecidableEq

/-! ## JSON values and Go-style decoding

Go struct USDBRLQuotation (server.go lines 213-215) embeds Quotation under
the JSON tag USDBRL; its decoded content is exactly a Quotation, so the
embedding uses Quotation directly for the decoded value. -/

/-- A parsed JSON value.  Numbers are modelled as integers: the only numeric
field decoded by this system is the status_code of an ErrorResponse, always
an HTTP status. -/
inductive Json where
  | null
  | bool (b : Bool)
  | num (n : Int)
  | str (s : String)
  | arr (elems : List Json)
  | obj (fields : List (String × Json))

/-- encoding/json decoding of a JSON value into a Go string field: null
leaves the current value, a JSON string overwrites it, any other value is a
type error. -/
def decStr (cur : String) : Json → Except String String
  | .null => .ok cur
  | .str s => .ok s
  | _ => .error "json: cannot unmarshal value into Go string"

/-- encoding/json decoding of a JSON value into a Go int field. -/
def decInt (cur : Int) : Json → Except String Int
  | .null => .ok cur
  | .num n => .ok n
  | _ => .error "json: cannot unmarshal value into Go int"

/-- ASCII lower-casing of one character, as encoding/json folds field
names. -/
def asciiLowerChar (c : Char) : Char :=
  if 65 ≤ c.toNat && c.toNat ≤ 90 then Char.ofNat (c.toNat + 32) else c

/-- ASCII case-insensitive equality of two character sequences. -/
def eqFoldChars : List Char → List Char → Bool
  | [], [] => true
  | a :: as, b :: bs => asciiLowerChar a == asciiLowerChar b && eqFoldChars as bs
  | _, _ => false

/-- encoding/json field-name matching: exact JSON tag match, with an ASCII
case-insensitive fallback (the tags of this system are pairwise distinct
even case-insensitively, so the fallback never competes with an exact
match on another field). -/
def jsonKeyMatches (key tag : String) : Bool :=
  key == tag || eqFoldChars key.data tag.data

/-- Assign one JSON object member to the Quotation field whose tag matches
its key; unknown keys are ignored, as encoding/json does. -/
def Quotation.setField (q : Quotation) (key : String) (v : Json) :
    Except String Quotation :=
  if jsonKeyMatches key "code" then (decStr q.code v).map fun s => { q with code := s }
  else if jsonKeyMatches key "codein" then (decStr q.codeIn v).map fun s => { q with codeIn := s }
  else if jsonKeyMatches key "name" then (decStr q.name v).map fun s => { q with name := s }
  else if jsonKeyMatches key "high" then (decStr q.high v).map fun s => { q with high := s }
  else if jsonKeyMatches key "low" then (decStr q.low v).map fun s => { q with low := s }
  else if jsonKeyMatches key "varBid" then (decStr q.varBid v).map fun s => { q with varBid := s }
  else if jsonKeyMatches key "pctChange" then (decStr q.pctChange v).map fun s => { q with pctChange := s }
  else if jsonKeyMatches key "bid" then (decStr q.bid v).map fun s => { q with bid := s }
  else if jsonKeyMatches key "ask" then (decStr q.ask v).map fun s => { q with ask := s }
  else if jsonKeyMatches key "timestamp" then (decStr q.timestamp v).map fun s => { q with timestamp := s }
  else if jsonKeyMatches key "create_date" then (decStr q.createDate v).map fun s => { q with createDate := s }
  else .ok q

/-- Fold the members of a JSON object into a Quotation; a later duplicate
key overwrites an earlier one, as encoding/json does. -/
def decodeQuotationObj (q : Quotation) : List (String × Json) → Except String Quotation
  | [] => .ok q
  | (k, v) :: rest =>
    match q.setField k v with
    | .error e => .error e
    | .ok q2 => decodeQuotationObj q2 rest

/-- encoding/json decoding of a JSON value into the embedded Quotation
struct: null leaves it, an object assigns the matching members, anything
else is a type error. -/
def decodeQuotation (q : Quotation) : Json → Except String Quotation
  | .null => .ok q
  | .obj fs => decodeQuotationObj q fs
  | _ => .error "json: cannot unmarshal value into Go struct Quotation"

/-- Fold the members of the top-level JSON object into a USDBRLQuotation:
only keys matching the tag USDBRL touch the embedded Quotation, all other
keys are ignored. -/
def decodeUSDBRLObj (q : Quotation) : List (String × Json) → Except String Quotation
  | [] => .ok q
  | (k, v) :: rest =>
    if jsonKeyMatches k "USDBRL" then
      match decodeQuotation q v with
      | .error e => .error e
      | .ok q2 => decodeUSDBRLObj q2 rest
    else decodeUSDBRLObj q rest

/-- encoding/json decoding of the upstream body into USDBRLQuotation
(server.go lines 129-130): starts from the zero value, so an object
missing the USDBRL key, or missing any Quotation field, yields empty
strings for the absent parts. -/
def decodeUSDBRL : Json → Except String Quotation
  | .null => .ok Quotation.empty
  | .obj fs => decodeUSDBRLObj Quotation.empty fs
  | _ => .error "json: cannot unmarshal value into Go struct USDBRLQuotation"

/-- Assign one JSON object member to the QuotationResponse field whose tag
matches its key (client.go lines 108-110). -/
def QuotationResponse.setField (q : QuotationResponse) (key : String) (v : Json) :
    Except String QuotationResponse :=
  if jsonKeyMatches key "bid" then (decStr q.bid v).map fun s => { q with bid := s }
  else .ok q

/-- Fold the members of a JSON object into a QuotationResponse. -/
def decodeQuotationRespObj (q : QuotationResponse) :
    List (String × Json) → Except String QuotationResponse
  | [] => .ok q
  | (k, v) :: rest =>
    match q.setField k v with
    | .error e => .error e
    | .ok q2 => decodeQuotationRespObj q2 rest

/-- encoding/json decoding of a server 200 body into QuotationResponse
(client.go lines 73-74). -/
def decodeQuotationResponse : Json → Except String QuotationResponse
  | .null => .ok ⟨""⟩
  | .obj fs => decodeQuotationRespObj ⟨""⟩ fs
  | _ => .error "json: cannot unmarshal value into Go struct QuotationResponse"

/-- Assign one JSON object member to the ErrorResponse field whose tag
matches its key (client.go lines 103-106). -/
def ErrorResponse.setField (er : ErrorResponse) (key : String) (v : Json) :
    Except String ErrorResponse :=
  if jsonKeyMatches key "error" then (decStr er.error v).map fun s => { er with error := s }
  else if jsonKeyMatches key "status_code" then (decInt er.statusCode v).map fun n => { er with statusCode := n }
  else .ok er

/-- Fold the members of a JSON object into an ErrorResponse. -/
def decodeErrorRespObj (er : ErrorResponse) :
    List (String × Json) → Except String ErrorResponse
  | [] => .ok er
  | (k, v) :: rest =>
    match er.setField k v with
    | .error e => .error e
    | .ok er2 => decodeErrorRespObj er2 rest

/-- encoding/json decoding of a server non-200 body into ErrorResponse
(client.go lines 95-96). -/
def decodeErrorResponse : Json → Except String ErrorResponse
  | .null => .ok ⟨"", 0⟩
  | .obj fs => decodeErrorRespObj ⟨"", 0⟩ fs
  | _ => .error "json: cannot unmarshal value into Go struct ErrorResponse"

/-- A received HTTP body as seen by json.Decoder.Decode: either the decoder
fails outright (syntactically malformed or empty body), or the body parses
to a JSON value which is then decoded into the target struct. -/
def decodeBody {α : Type} (dec : Json → Except String α) :
    Except String Json → Except String α
  | .error e => .error e
  | .ok j => dec j

/-! ## Go time.Duration formatting

fmt.Sprint renders a time.Duration through Duration.String; the handler
embeds the configured request timeout in its deadline-exceeded message
this way (server.go line 120, client.go line 56). -/

/-- Go fmtFrac: format the prec low-order decimal digits of v as a
fraction, omitting trailing zeros and the point when the fraction is zero;
returns the fraction text and v stripped of those digits. -/
def fmtFracGo : Nat → Nat → Bool → String → String × Nat
  | 0, v, pr, acc => (if pr then "." ++ acc else "", v)
  | prec + 1, v, pr, acc =>
    let digit := v % 10
    let pr2 := pr || digit != 0
    let acc2 := if pr2 then String.singleton (Nat.digitChar digit) ++ acc else acc
    fmtFracGo prec (v / 10) pr2 acc2

/-- Go Duration.String for a non-negative duration of d nanoseconds:
0s for zero; ns, µs or ms with up to full precision below one second;
otherwise seconds, with minutes and hours peeled off. -/
def goDurationString (d : Nat) : String :=
  if d == 0 then "0s"
  else if d < 1000000000 then
    let up : String × Nat :=
      if d < 1000 then ("ns", 0)
      else if d < 1000000 then ("µs", 3)
      else ("ms", 6)
    let fv := fmtFracGo up.2 d false ""
    toString fv.2 ++ fv.1 ++ up.1
  else
    let fv := fmtFracGo 9 d false ""
    let secPart := toString (fv.2 % 60) ++ fv.1 ++ "s"
    let mins := fv.2 / 60
    if mins == 0 then secPart
    else
      let minPart := toString (mins % 60) ++ "m" ++ secPart
      let hrs := mins / 60
      if hrs == 0 then minPart else toString hrs ++ "h" ++ minPart

/-! ## Contexts and server configuration -/

/-- Go context.WithTimeout(parent, d) at wall-clock instant now: the child
context carries the deadline now + d, further bounded by the parent's own
deadline when the parent has one (context.WithDeadline keeps the earlier
of the two), i.e. standard deadline intersection. -/
def ctxWithTimeout (parent : Option Nat) (now d : Nat) : Option Nat :=
  match parent with
  | none => some (now + d)
  | some p => some (min p (now + d))

/-- The server's flag-parsed configuration (server.go lines 18-23, 44-45):
requestTimeout (flag -rt, default 200ms) and databaseTimeout (flag -dbt,
default 10ms), in nanoseconds. -/
structure Config where
  requestTimeout : Nat
  databaseTimeout : Nat
deriving Repr, DecidableEq

/-- An error value returned by a Go call, as the handler discriminates it:
either errors.Is(err, context.DeadlineExceeded) holds, or it is some other
error with its message text. -/
inductive GoError where
  | deadlineExceeded
  | other (msg : String)
deriving Repr, DecidableEq

/-- The errors.Is(err, context.DeadlineExceeded) test. -/
def GoError.isDeadlineExceeded : GoError → Bool
  | .deadlineExceeded => true
  | .other _ => false

/-- The err.Error() text interpolated by fmt.Sprint. -/
def GoError.message : GoError → String
  | .deadlineExceeded => "context deadline exceeded"
  | .other m => m

/-- Outcome of http.DefaultClient.Do on the outbound upstream GET: a
transport failure, or a response whose body the JSON decoder then reads. -/
inductive FetchOutcome where
  | failure (e : GoError)
  | success (body : Except String Json)

/-- Everything outside the handler's own control during one request:
the inbound request context's deadline, the wall-clock instants at the two
context.WithTimeout calls, and the outcomes of each external call. -/
structure ServerEnv where
  inboundDeadline : Option Nat
  now : Nat
  nowDB : Nat
  newRequestErr : Option String
  fetch : FetchOutcome
  prepareErr : Option String
  execErr : Option String
  encodeErr : Option String

/-! ## Response writer and handler -/

/-- A JSON payload written to the response body. -/
inductive Payload where
  | errorBody (e : ErrorResponse)
  | quotationBody (q : QuotationResponse)
deriving Repr, DecidableEq

/-- net/http ResponseWriter state: the status line actually sent (only the
first WriteHeader call takes effect; later calls are superfluous no-ops)
and the sequence of JSON payloads encoded to the body. -/
structure ResponseWriter where
  status : Option Int
  body : List Payload
deriving Repr, DecidableEq

/-- The writer before anything is written. -/
def ResponseWriter.fresh : ResponseWriter := ⟨none, []⟩

/-- w.WriteHeader(code): sets the status if none was sent yet; a second
call is ignored by net/http (logged as superfluous). -/
def ResponseWriter.writeHeader (w : ResponseWriter) (code : Int) : ResponseWriter :=
  match w.status with
  | some _ => w
  | none => { w with status := some code }

/-- json.NewEncoder(w).Encode(p): appends one JSON payload to the body. -/
def ResponseWriter.writeJSON (w : ResponseWriter) (p : Payload) : ResponseWriter :=
  { w with body := w.body ++ [p] }

/-- sendMsgError (server.go lines 155-159): logs, writes the status header,
and encodes ErrorResponse with both the message and the status code. -/
def sendMsgError (w : ResponseWriter) (msg : String) (statusCode : Int) : ResponseWriter :=
  (w.writeHeader statusCode).writeJSON (.errorBody ⟨msg, statusCode⟩)

/-- What one call to saveQuotationToDB did: the deadline of the dbCtx
passed to ExecContext (none while Prepare failed before dbCtx existed),
the rows inserted, and the error returned to the caller. -/
structure SaveTrace where
  execDeadline : Option (Option Nat)
  inserted : List (List String)
  result : Option String
deriving Repr, DecidableEq

/-- saveQuotationToDB (server.go lines 161-202): Prepare the INSERT; on
success derive dbCtx = context.WithTimeout(ctx, databaseTimeout) from the
ctx argument and ExecContext the eleven fields in column order
(code, code_in, name, high, low, var_bid, pct_change, bid, ask, timestamp,
create_date); wrap either failure. -/
def saveQuotationToDB (cfg : Config) (env : ServerEnv) (ctxDeadline : Option Nat)
    (cotacao : Quotation) : SaveTrace :=
  match env.prepareErr with
  | some e => ⟨none, [], some ("falha ao preparar query. " ++ e)⟩
  | none =>
    let dbCtx := ctxWithTimeout ctxDeadline env.nowDB cfg.databaseTimeout
    match env.execErr with
    | some e => ⟨some dbCtx, [], some ("falha ao executar query. " ++ e)⟩
    | none =>
      ⟨some dbCtx,
       [[cotacao.code, cotacao.codeIn, cotacao.name, cotacao.high, cotacao.low,
         cotacao.varBid, cotacao.pctChange, cotacao.bid, cotacao.ask,
         cotacao.timestamp, cotacao.createDate]],
       none⟩

/-- The observable record of one cotacaoHandler invocation: the deadline of
the context put on the outbound request, the saveQuotationToDB call when
one was made, and the response written. -/
structure HandlerTrace where
  outboundDeadline : Option Nat
  save : Option SaveTrace
  response : ResponseWriter
deriving Repr, DecidableEq

/-- cotacaoHandler (server.go lines 104-151), translated branch by branch:
derive ctx = context.WithTimeout(r.Context(), requestTimeout); build the
outbound request on ctx; Do it, discriminating deadline-exceeded from
other failures; decode the body as USDBRLQuotation; call
saveQuotationToDB with r.Context() (the inbound context, not ctx);
then WriteHeader(200) and encode QuotationResponse with the decoded bid.
Every failure goes through sendMsgError with http.StatusInternalServerError.
The message literals are byte-for-byte those of server.go, mojibake
included. -/
def cotacaoHandler (cfg : Config) (env : ServerEnv) : HandlerTrace :=
  let ctx := ctxWithTimeout env.inboundDeadline env.now cfg.requestTimeout
  let w := ResponseWriter.fresh
  match env.newRequestErr with
  | some e =>
    ⟨ctx, none, sendMsgError w ("GET /cotacao - falha ao criar requisi????o: " ++ e) 500⟩
  | none =>
    match env.fetch with
    | .failure err =>
      let msg :=
        if err.isDeadlineExceeded then
          "requisi????o ultrapassou o tempo m??ximo de " ++ goDurationString cfg.requestTimeout
        else
          "GET /cotacao - requisi????o falhou: " ++ err.message
      ⟨ctx, none, sendMsgError w msg 500⟩
    | .success body =>
      match decodeBody decodeUSDBRL body with
      | .error e =>
        ⟨ctx, none,
         sendMsgError w ("GET /cotacao - falha ao decodificar corpo da requisi????o: " ++ e) 500⟩
      | .ok cotacao =>
        let save := saveQuotationToDB cfg env env.inboundDeadline cotacao
        match save.result with
        | some e =>
          ⟨ctx, some save,
           sendMsgError w ("GET /cotacao - falha ao salvar dados no banco: " ++ e) 500⟩
        | none =>
          let w2 := w.writeHeader 200
          match env.encodeErr with
          | some e =>
            ⟨ctx, some save,
             sendMsgError w2 ("GET /cotacao - falha ao enviar requisi????o: " ++ e) 500⟩
          | none =>
            ⟨ctx, some save, w2.writeJSON (.quotationBody ⟨cotacao.bid⟩)⟩

/-! ## Schema bootstrap (server.go lines 67-90) -/

/-- The relational store as a set of tables, each a name with its column
list, in creation order. -/
structure DBState where
  tables : List (String × List String)
deriving Repr, DecidableEq

/-- The column list of the cotacao table, in the order of the CREATE TABLE
statement (server.go lines 73-86). -/
def cotacaoColumns : List String :=
  ["code", "code_in", "name", "high", "low", "var_bid", "pct_change",
   "bid", "ask", "timestamp", "create_date"]

/-- CREATE TABLE IF NOT EXISTS as executed by the SQLite store: a no-op
when a table of that name exists, otherwise it adds the table; it never
fails on an existing table. -/
def createTableIfNotExists (s : DBState) (nm : String) (cols : List String) : DBState :=
  if s.tables.any fun t => t.fst == nm then s
  else ⟨s.tables ++ [(nm, cols)]⟩

/-- startDatabase (server.go lines 67-90): executes CREATE TABLE IF NOT
EXISTS cotacao with the eleven text columns. -/
def startDatabase (s : DBState) : DBState :=
  createTableIfNotExists s "cotacao" cotacaoColumns

/-! ## Client (client.go lines 16-110) -/

/-- The client's flag-parsed configuration (client.go lines 16-18, 35):
requestTimeout (flag -rt, default 200ms), in nanoseconds. -/
structure ClientConfig where
  requestTimeout : Nat
deriving Repr, DecidableEq

/-- Outcome of http.DefaultClient.Do on the client's GET to the server:
a transport failure, or a response with its status code and body. -/
inductive ClientTransport where
  | failure (e : GoError)
  | response (statusCode : Int) (body : Except String Json)

/-- Everything outside the client's control during one invocation: the
request-creation and transport outcomes, the prior contents of cotacao.txt
(none when the file is absent), and the file open/write outcomes. -/
structure ClientEnv where
  newRequestErr : Option String
  transport : ClientTransport
  file : Option (List String)
  openErr : Option String
  writeErr : Option String

/-- How the client process ends: log.Fatal* prints the message and exits
with status 1; a normal return exits with status 0. -/
inductive ClientExit where
  | fatal (msg : String)
  | normal
deriving Repr, DecidableEq

/-- The process exit status implied by the ending. -/
def ClientExit.exitCode : ClientExit → Nat
  | .fatal _ => 1
  | .normal => 0

/-- The observable record of one client invocation: how many HTTP requests
it issued, the resulting contents of cotacao.txt (as lines), and how the
process ended. -/
structure ClientTrace where
  requestsMade : Nat
  file : Option (List String)
  exit : ClientExit
deriving Repr, DecidableEq

/-- saveQuotationToFile (client.go lines 72-92): decode the 200 body as
QuotationResponse; open cotacao.txt with O_APPEND, O_CREATE and O_RDWR; and
fmt.Fprintln one line built by fmt.Sprint of the fixed label and the bid.
Returns the resulting file contents and process ending. -/
def saveQuotationToFile (env : ClientEnv) (body : Except String Json) :
    Option (List String) × ClientExit :=
  match decodeBody decodeQuotationResponse body with
  | .error e => (env.file, .fatal ("Falha ao decodificar corpo da requisição: " ++ e))
  | .ok cotacao =>
    match env.openErr with
    | some e => (env.file, .fatal e)
    | none =>
      let lines := env.file.getD []
      let msg := "Dólar: " ++ cotacao.bid
      match env.writeErr with
      | some e => (some lines, .fatal ("Falha ao salvar dados em disco: " ++ e))
      | none => (some (lines ++ [msg]), .normal)

/-- handleError (client.go lines 94-101): decode the non-200 body as
ErrorResponse and log.Fatalf the embedded message and status code. -/
def handleError (body : Except String Json) : ClientExit :=
  match decodeBody decodeErrorResponse body with
  | .error e => .fatal ("Falha ao decodificar corpo da requisição: " ++ e)
  | .ok er =>
    .fatal ("Ocorreu um erro: " ++ er.error ++ "\nCódigo: " ++ toString er.statusCode ++ "\n")

/-- makeRequest (client.go lines 44-70): build one GET under a
requestTimeout context; Do it, discriminating deadline-exceeded from other
transport failures; switch on the status: 200 saves to file, anything else
goes to handleError.  The function is straight-line: it issues at most one
request and never retries. -/
def makeRequest (cfg : ClientConfig) (env : ClientEnv) : ClientTrace :=
  match env.newRequestErr with
  | some e => ⟨0, env.file, .fatal ("Falha ao criar requisição: " ++ e)⟩
  | none =>
    match env.transport with
    | .failure err =>
      let msg :=
        if err.isDeadlineExceeded then
          "Requisição ultrapassou o tempo máximo de " ++ goDurationString cfg.requestTimeout
        else
          "Requisição falhou: " ++ err.message
      ⟨1, env.file, .fatal msg⟩
    | .response status body =>
      if status == 200 then
        let fe := saveQuotationToFile env body
        ⟨1, fe.1, fe.2⟩
      else
        ⟨1, env.file, handleError body⟩

/-! ## Concrete sample inputs

The upstream body of the spec's concrete scenario, and small environments
used to evaluate the theorems below on closed inputs. -/

/-- The JSON value of the spec's concrete upstream scenario. -/
def sampleJson : Json :=
  .obj [("USDBRL", .obj
    [("code", .str "USD"), ("codein", .str "BRL"), ("name", .str "Dólar/Real"),
     ("high", .str "5.50"), ("low", .str "5.40"), ("varBid", .str "0.01"),
     ("pctChange", .str "0.18"), ("bid", .str "5.45"), ("ask", .str "5.46"),
     ("timestamp", .str "1700000000"), ("create_date", .str "2023-11-14 10:00:00")])]

/-- The Quotation decoded from sampleJson. -/
def sampleQuotation : Quotation :=
  ⟨"USD", "BRL", "Dólar/Real", "5.50", "5.40", "0.01", "0.18", "5.45", "5.46",
   "1700000000", "2023-11-14 10:00:00"⟩

/-- The default configuration: -rt 200ms, -dbt 10ms. -/
def cfgDefault : Config := ⟨200000000, 10000000⟩

/-- A fully successful request environment over sampleJson, with an inbound
deadline of 100 and clock instants 50 and 60. -/
def envSuccess : ServerEnv :=
  { inboundDeadline := some 100, now := 50, nowDB := 60,
    newRequestErr := none, fetch := .success (.ok sampleJson),
    prepareErr := none, execErr := none, encodeErr := none }

/-- An environment where the outbound call fails with deadline exceeded. -/
def envFetchTimeout : ServerEnv :=
  { inboundDeadline := none, now := 0, nowDB := 0, newRequestErr := none,
    fetch := .failure .deadlineExceeded, prepareErr := none, execErr := none,
    encodeErr := none }

/-- An environment where everything succeeds except the database insert,
whose deadline elapses. -/
def envDBFail : ServerEnv :=
  { inboundDeadline := none, now := 0, nowDB := 0, newRequestErr := none,
    fetch := .success (.ok sampleJson), prepareErr := none,
    execErr := some "context deadline exceeded", encodeErr := none }

/-- An environment where everything succeeds except encoding the
QuotationResponse to the wire. -/
def envEncodeFail : ServerEnv :=
  { inboundDeadline := some 100, now := 50, nowDB := 60, newRequestErr := none,
    fetch := .success (.ok sampleJson), prepareErr := none, execErr := none,
    encodeErr := some "broken pipe" }

/-- An environment whose upstream body is syntactically valid JSON that is
not an object: the JSON string value 5.45. -/
def envNonObjectBody : ServerEnv :=
  { inboundDeadline := none, now := 0, nowDB := 0, newRequestErr := none,
    fetch := .success (.ok (.str "5.45")), prepareErr := none, execErr := none,
    encodeErr := none }

/-- An environment whose upstream body is the valid JSON object with no
members at all. -/
def envEmptyObject : ServerEnv :=
  { inboundDeadline := none, now := 0, nowDB := 0, newRequestErr := none,
    fetch := .success (.ok (.obj [])), prepareErr := none, execErr := none,
    encodeErr := none }

/-- An environment where building the outbound request itself fails. -/
def envReqCreateFail : ServerEnv :=
  { inboundDeadline := none, now := 0, nowDB := 0, newRequestErr := some "parse error",
    fetch := .failure .deadlineExceeded, prepareErr := none, execErr := none,
    encodeErr := none }

/-- A client environment receiving a 500 with an ErrorResponse body. -/
def envClientError : ClientEnv :=
  { newRequestErr := none,
    transport := .response 500 (.ok (.obj [("error", .str "boom"), ("status_code", .num 500)])),
    file := some [], openErr := none, writeErr := none }

/-- A client environment receiving a 200 with a QuotationResponse body,
with one line already present in cotacao.txt. -/
def envClientOk : ClientEnv :=
  { newRequestErr := none,
    transport := .response 200 (.ok (.obj [("bid", .str "5.45")])),
    file := some ["Dólar: 5.30"], openErr := none, writeErr := none }

/-- A store that already holds the cotacao table. -/
def dbWithCotacao : DBState := ⟨[("cotacao", cotacaoColumns)]⟩

/-! ## Theorems -/

/-- Claim C1: whenever the upstream fetch, the decode, the persistence and
the response encoding all succeed, the row handed to the store carries the
eleven decoded fields verbatim in column order — in particular the bid
column (the eighth) is exactly the decoded bid string — and the 200
response body is a QuotationResponse holding that same bid string: no
transformation occurs between fetch, the stored row and the returned
payload. -/
theorem bid_preserved (cfg : Config) (env : ServerEnv)
    (body : Except String Json) (cotacao : Quotation)
    (hreq : env.newRequestErr = none)
    (hfetch : env.fetch = .success body)
    (hdec : decodeBody decodeUSDBRL body = .ok cotacao)
    (hprep : env.prepareErr = none)
    (hexec : env.execErr = none)
    (henc : env.encodeErr = none) :
    (cotacaoHandler cfg env).save =
      some ⟨some (ctxWithTimeout env.inboundDeadline env.nowDB cfg.databaseTimeout),
        [[cotacao.code, cotacao.codeIn, cotacao.name, cotacao.high, cotacao.low,
          cotacao.varBid, cotacao.pctChange, cotacao.bid, cotacao.ask,
          cotacao.timestamp, cotacao.createDate]], none⟩
    ∧ (cotacaoHandler cfg env).response = ⟨some 200, [.quotationBody ⟨cotacao.bid⟩]⟩ := by
  simp [cotacaoHandler, hreq, hfetch, hdec, saveQuotationToDB, hprep, hexec, henc,
    ResponseWriter.fresh, ResponseWriter.writeHeader, ResponseWriter.writeJSON]

/-- Witness for C1: the spec's concrete scenario, evaluated. -/
theorem bid_preserved_witness :
    (cotacaoHandler cfgDefault envSuccess).save =
      some ⟨some (ctxWithTimeout envSuccess.inboundDeadline envSuccess.nowDB
          cfgDefault.databaseTimeout),
        [[sampleQuotation.code, sampleQuotation.codeIn, sampleQuotation.name,
          sampleQuotation.high, sampleQuotation.low, sampleQuotation.varBid,
          sampleQuotation.pctChange, sampleQuotation.bid, sampleQuotation.ask,
          sampleQuotation.timestamp, sampleQuotation.createDate]], none⟩
    ∧ (cotacaoHandler cfgDefault envSuccess).response
        = ⟨some 200, [.quotationBody ⟨sampleQuotation.bid⟩]⟩ :=
  bid_preserved cfgDefault envSuccess (.ok sampleJson) sampleQuotation rfl rfl rfl rfl rfl rfl

/-- Claim C2: the deadline on the outbound upstream GET is the intersection
of the inbound request's own deadline (when it has one) and now plus the
configured request timeout; and the deadline at the persistence insert is
derived from the inbound request context intersected with the configured
database timeout — taken from r.Context(), not from the outbound-call
context — so the save trace is invariant under any change of the request
timeout. -/
theorem req_db_deadlines (cfg : Config) (env : ServerEnv)
    (body : Except String Json) (cotacao : Quotation)
    (hreq : env.newRequestErr = none)
    (hfetch : env.fetch = .success body)
    (hdec : decodeBody decodeUSDBRL body = .ok cotacao)
    (hprep : env.prepareErr = none) :
    (cotacaoHandler cfg env).outboundDeadline
        = ctxWithTimeout env.inboundDeadline env.now cfg.requestTimeout
    ∧ (∀ d, env.inboundDeadline = some d →
        (cotacaoHandler cfg env).outboundDeadline = some (min d (env.now + cfg.requestTimeout)))
    ∧ (env.inboundDeadline = none →
        (cotacaoHandler cfg env).outboundDeadline = some (env.now + cfg.requestTimeout))
    ∧ (∃ st, (cotacaoHandler cfg env).save = some st ∧
        st.execDeadline = some (ctxWithTimeout env.inboundDeadline env.nowDB cfg.databaseTimeout))
    ∧ (∀ rt, (cotacaoHandler ⟨rt, cfg.databaseTimeout⟩ env).save = (cotacaoHandler cfg env).save) := by
  obtain ⟨ibd, now, nowDB, nre, fetch, pe, ee, ence⟩ := env
  simp only [ServerEnv.newRequestErr] at hreq
  simp only [ServerEnv.fetch] at hfetch
  simp only [ServerEnv.prepareErr] at hprep
  subst hreq hfetch hprep
  refine ⟨?_, ?_, ?_, ?_, ?_⟩
  · cases ee <;> cases ence <;>
      simp [cotacaoHandler, hdec, saveQuotationToDB]
  · intro d hd
    subst hd
    cases ee <;> cases ence <;>
      simp [cotacaoHandler, hdec, saveQuotationToDB, ctxWithTimeout]
  · intro hd
    subst hd
    cases ee <;> cases ence <;>
      simp [cotacaoHandler, hdec, saveQuotationToDB, ctxWithTimeout]
  · cases ee <;> cases ence <;>
      simp [cotacaoHandler, hdec, saveQuotationToDB]
  · intro rt
    cases ee <;> cases ence <;>
      simp [cotacaoHandler, hdec, saveQuotationToDB]

/-- Witness for C2: with an inbound deadline of 100, clock 50 and the
default 200ms request timeout the outbound deadline is min 100 200000050;
the insert deadline is derived from the inbound deadline 100 at clock 60
with the 10ms database timeout. -/
theorem req_db_deadlines_witness :
    (cotacaoHandler cfgDefault envSuccess).outboundDeadline
        = some (min 100 (50 + 200000000))
    ∧ (∃ st, (cotacaoHandler cfgDefault envSuccess).save = some st
        ∧ st.execDeadline = some (ctxWithTimeout (some 100) 60 10000000)) :=
  have h := req_db_deadlines cfgDefault envSuccess (.ok sampleJson) sampleQuotation
    rfl rfl rfl rfl
  ⟨h.2.1 100 rfl, h.2.2.2.1⟩

/-- Claim C3: when the outbound call fails with a deadline-exceeded error
the handler answers 500 with an ErrorResponse whose message embeds the
configured request timeout rendered by Go duration formatting; any other
transport failure gets the distinct generic message; in both cases the
save trace is empty, i.e. saveQuotationToDB is never invoked. -/
theorem fetch_failure_responses (cfg : Config) (env : ServerEnv)
    (hreq : env.newRequestErr = none) :
    (env.fetch = .failure .deadlineExceeded →
      (cotacaoHandler cfg env).response
          = ⟨some 500, [.errorBody ⟨"requisi????o ultrapassou o tempo m??ximo de "
              ++ goDurationString cfg.requestTimeout, 500⟩]⟩
        ∧ (cotacaoHandler cfg env).save = none)
    ∧ (∀ m, env.fetch = .failure (.other m) →
      (cotacaoHandler cfg env).response
          = ⟨some 500, [.errorBody ⟨"GET /cotacao - requisi????o falhou: " ++ m, 500⟩]⟩
        ∧ (cotacaoHandler cfg env).save = none) := by
  constructor
  · intro hf
    simp [cotacaoHandler, hreq, hf, GoError.isDeadlineExceeded, sendMsgError,
      ResponseWriter.fresh, ResponseWriter.writeHeader, ResponseWriter.writeJSON]
  · intro m hf
    simp [cotacaoHandler, hreq, hf, GoError.isDeadlineExceeded, GoError.message, sendMsgError,
      ResponseWriter.fresh, ResponseWriter.writeHeader, ResponseWriter.writeJSON]

/-- Witness for C3: under the default 200ms timeout the deadline-exceeded
message names the literal duration 200ms, and no persistence happens. -/
theorem fetch_failure_responses_witness :
    (cotacaoHandler cfgDefault envFetchTimeout).response
        = ⟨some 500, [.errorBody ⟨"requisi????o ultrapassou o tempo m??ximo de 200ms", 500⟩]⟩
    ∧ (cotacaoHandler cfgDefault envFetchTimeout).save = none :=
  (fetch_failure_responses cfgDefault envFetchTimeout rfl).1 rfl

/-- Claim C4: when the persistence insert fails (for instance because the
database deadline elapsed) the handler answers 500 with an ErrorResponse
carrying the wrapped persistence error, and it never sends a 200 response
nor any QuotationResponse payload for that request. -/
theorem db_failure_responds_500 (cfg : Config) (env : ServerEnv)
    (body : Except String Json) (cotacao : Quotation) (e : String)
    (hreq : env.newRequestErr = none)
    (hfetch : env.fetch = .success body)
    (hdec : decodeBody decodeUSDBRL body = .ok cotacao)
    (hprep : env.prepareErr = none)
    (hexec : env.execErr = some e) :
    (cotacaoHandler cfg env).response
        = ⟨some 500, [.errorBody ⟨"GET /cotacao - falha ao salvar dados no banco: "
            ++ ("falha ao executar query. " ++ e), 500⟩]⟩
    ∧ (cotacaoHandler cfg env).response.status ≠ some 200
    ∧ ∀ q, Payload.quotationBody q ∉ (cotacaoHandler cfg env).response.body := by
  simp [cotacaoHandler, hreq, hfetch, hdec, saveQuotationToDB, hprep, hexec, sendMsgError,
    ResponseWriter.fresh, ResponseWriter.writeHeader, ResponseWriter.writeJSON]

/-- Witness for C4: an insert whose deadline elapsed, evaluated. -/
theorem db_failure_responds_500_witness :
    (cotacaoHandler cfgDefault envDBFail).response
        = ⟨some 500, [.errorBody ⟨"GET /cotacao - falha ao salvar dados no banco: "
            ++ ("falha ao executar query. " ++ "context deadline exceeded"), 500⟩]⟩
    ∧ (cotacaoHandler cfgDefault envDBFail).response.status ≠ some 200
    ∧ ∀ q, Payload.quotationBody q ∉ (cotacaoHandler cfgDefault envDBFail).response.body :=
  db_failure_responds_500 cfgDefault envDBFail (.ok sampleJson) sampleQuotation
    "context deadline exceeded" rfl rfl rfl rfl rfl

/-- Counterexample to C5 as stated: when encoding the QuotationResponse
fails, WriteHeader(200) has already been called, and net/http ignores the
later WriteHeader(500) inside sendMsgError as superfluous — the HTTP status
of the response stays 200, not a 500-class status as the claim asserts.
The body was not malformed and every earlier stage succeeded. -/
theorem encode_failure_keeps_200 :
    (cotacaoHandler cfgDefault envEncodeFail).response.status = some 200
    ∧ ¬ (cotacaoHandler cfgDefault envEncodeFail).response.status = some 500
    ∧ (cotacaoHandler cfgDefault envEncodeFail).response.body
        = [.errorBody ⟨"GET /cotacao - falha ao enviar requisi????o: broken pipe", 500⟩] := by
  decide

/-- Claim C5 as amended: an encoding failure is routed through the same
error routine, which writes an ErrorResponse body carrying the message
with status_code field 500 — but the HTTP status on the wire remains the
already-sent 200, the attempted WriteHeader(500) being a no-op. -/
theorem encode_failure_error_body (cfg : Config) (env : ServerEnv)
    (body : Except String Json) (cotacao : Quotation) (e : String)
    (hreq : env.newRequestErr = none)
    (hfetch : env.fetch = .success body)
    (hdec : decodeBody decodeUSDBRL body = .ok cotacao)
    (hprep : env.prepareErr = none)
    (hexec : env.execErr = none)
    (henc : env.encodeErr = some e) :
    (cotacaoHandler cfg env).response.status = some 200
    ∧ (cotacaoHandler cfg env).response.body
        = [.errorBody ⟨"GET /cotacao - falha ao enviar requisi????o: " ++ e, 500⟩] := by
  simp [cotacaoHandler, hreq, hfetch, hdec, saveQuotationToDB, hprep, hexec, henc, sendMsgError,
    ResponseWriter.fresh, ResponseWriter.writeHeader, ResponseWriter.writeJSON]

/-- Witness for the amended C5. -/
theorem encode_failure_error_body_witness :
    (cotacaoHandler cfgDefault envEncodeFail).response.status = some 200
    ∧ (cotacaoHandler cfgDefault envEncodeFail).response.body
        = [.errorBody ⟨"GET /cotacao - falha ao enviar requisi????o: " ++ "broken pipe", 500⟩] :=
  encode_failure_error_body cfgDefault envEncodeFail (.ok sampleJson) sampleQuotation
    "broken pipe" rfl rfl rfl rfl rfl rfl

/-- Every response the handler writes has one of three shapes: a 500 with
one ErrorResponse payload of status_code 500, a 200 with one such
ErrorResponse payload (the encode-failure path), or a 200 with one
QuotationResponse payload. -/
theorem handler_response_shape (cfg : Config) (env : ServerEnv) :
    (∃ msg, (cotacaoHandler cfg env).response = ⟨some 500, [.errorBody ⟨msg, 500⟩]⟩)
    ∨ (∃ msg, (cotacaoHandler cfg env).response = ⟨some 200, [.errorBody ⟨msg, 500⟩]⟩)
    ∨ (∃ b, (cotacaoHandler cfg env).response = ⟨some 200, [.quotationBody b]⟩) := by
  obtain ⟨ibd, now, nowDB, nre, fetch, pe, ee, ence⟩ := env
  cases nre with
  | some e =>
    refine Or.inl ⟨"GET /cotacao - falha ao criar requisi????o: " ++ e, ?_⟩
    simp [cotacaoHandler, sendMsgError, ResponseWriter.fresh, ResponseWriter.writeHeader,
      ResponseWriter.writeJSON]
  | none =>
    cases fetch with
    | failure err =>
      refine Or.inl ⟨if err.isDeadlineExceeded then
          "requisi????o ultrapassou o tempo m??ximo de " ++ goDurationString cfg.requestTimeout
        else "GET /cotacao - requisi????o falhou: " ++ err.message, ?_⟩
      simp [cotacaoHandler, sendMsgError, ResponseWriter.fresh, ResponseWriter.writeHeader,
        ResponseWriter.writeJSON]
    | success body =>
      cases hdec : decodeBody decodeUSDBRL body with
      | error e =>
        refine Or.inl ⟨"GET /cotacao - falha ao decodificar corpo da requisi????o: " ++ e, ?_⟩
        simp [cotacaoHandler, hdec, sendMsgError, ResponseWriter.fresh,
          ResponseWriter.writeHeader, ResponseWriter.writeJSON]
      | ok cotacao =>
        cases pe with
        | some e =>
          refine Or.inl ⟨"GET /cotacao - falha ao salvar dados no banco: "
            ++ ("falha ao preparar query. " ++ e), ?_⟩
          simp [cotacaoHandler, hdec, saveQuotationToDB, sendMsgError, ResponseWriter.fresh,
            ResponseWriter.writeHeader, ResponseWriter.writeJSON]
        | none =>
          cases ee with
          | some e =>
            refine Or.inl ⟨"GET /cotacao - falha ao salvar dados no banco: "
              ++ ("falha ao executar query. " ++ e), ?_⟩
            simp [cotacaoHandler, hdec, saveQuotationToDB, sendMsgError, ResponseWriter.fresh,
              ResponseWriter.writeHeader, ResponseWriter.writeJSON]
          | none =>
            cases ence with
            | some e =>
              refine Or.inr (Or.inl ⟨"GET /cotacao - falha ao enviar requisi????o: " ++ e, ?_⟩)
              simp [cotacaoHandler, hdec, saveQuotationToDB, sendMsgError, ResponseWriter.fresh,
                ResponseWriter.writeHeader, ResponseWriter.writeJSON]
            | none =>
              refine Or.inr (Or.inr ⟨⟨cotacao.bid⟩, ?_⟩)
              simp [cotacaoHandler, hdec, saveQuotationToDB, ResponseWriter.fresh,
                ResponseWriter.writeHeader, ResponseWriter.writeJSON]

/-- Counterexample to C6 as stated: the encode-failure path is a failure
path, its body's status_code field is 500, yet the HTTP status written for
that response is 200 — the body field does not equal the status sent, and
the status sent is not 500. -/
theorem status_code_mirror_counterexample :
    (cotacaoHandler cfgDefault envEncodeFail).response.body
        = [.errorBody ⟨"GET /cotacao - falha ao enviar requisi????o: broken pipe", 500⟩]
    ∧ (cotacaoHandler cfgDefault envEncodeFail).response.status = some 200
    ∧ ¬ some (500 : Int) = some (200 : Int) := by
  decide

/-- Claim C6 as amended: sendMsgError writes an ErrorResponse whose error
field is exactly the message and whose status_code is the status argument,
and sets the HTTP status to that argument whenever no header has been sent
yet.  Consequently on every failure path before the success header —
request creation, outbound fetch, body decode, statement prepare and
statement execution — the handler sends HTTP status 500 with exactly one
ErrorResponse body carrying that branch's diagnostic message and
status_code 500 mirroring the status; only the encode-failure path escapes
the mirror, writing the same ErrorResponse body but keeping the earlier
200.  Moreover every ErrorResponse body the handler ever writes has
status_code 500, the status sent is always 200 or 500, and whenever it is
500 the body is exactly one ErrorResponse whose status_code mirrors it. -/
theorem error_responses_uniform (cfg : Config) (env : ServerEnv) :
    (∀ w msg code, (sendMsgError w msg code).body = w.body ++ [.errorBody ⟨msg, code⟩])
    ∧ (∀ w msg code, w.status = none → (sendMsgError w msg code).status = some code)
    ∧ (∀ e, env.newRequestErr = some e →
        (cotacaoHandler cfg env).response
          = ⟨some 500, [.errorBody ⟨"GET /cotacao - falha ao criar requisi????o: " ++ e, 500⟩]⟩)
    ∧ (∀ err, env.newRequestErr = none → env.fetch = .failure err →
        (cotacaoHandler cfg env).response
          = ⟨some 500, [.errorBody ⟨if err.isDeadlineExceeded then
              "requisi????o ultrapassou o tempo m??ximo de " ++ goDurationString cfg.requestTimeout
            else "GET /cotacao - requisi????o falhou: " ++ err.message, 500⟩]⟩)
    ∧ (∀ body e, env.newRequestErr = none → env.fetch = .success body →
        decodeBody decodeUSDBRL body = .error e →
        (cotacaoHandler cfg env).response
          = ⟨some 500, [.errorBody ⟨"GET /cotacao - falha ao decodificar corpo da requisi????o: "
              ++ e, 500⟩]⟩)
    ∧ (∀ body cotacao e, env.newRequestErr = none → env.fetch = .success body →
        decodeBody decodeUSDBRL body = .ok cotacao → env.prepareErr = some e →
        (cotacaoHandler cfg env).response
          = ⟨some 500, [.errorBody ⟨"GET /cotacao - falha ao salvar dados no banco: "
              ++ ("falha ao preparar query. " ++ e), 500⟩]⟩)
    ∧ (∀ body cotacao e, env.newRequestErr = none → env.fetch = .success body →
        decodeBody decodeUSDBRL body = .ok cotacao → env.prepareErr = none →
        env.execErr = some e →
        (cotacaoHandler cfg env).response
          = ⟨some 500, [.errorBody ⟨"GET /cotacao - falha ao salvar dados no banco: "
              ++ ("falha ao executar query. " ++ e), 500⟩]⟩)
    ∧ (∀ body cotacao e, env.newRequestErr = none → env.fetch = .success body →
        decodeBody decodeUSDBRL body = .ok cotacao → env.prepareErr = none →
        env.execErr = none → env.encodeErr = some e →
        (cotacaoHandler cfg env).response
          = ⟨some 200, [.errorBody ⟨"GET /cotacao - falha ao enviar requisi????o: " ++ e, 500⟩]⟩)
    ∧ (∀ er, Payload.errorBody er ∈ (cotacaoHandler cfg env).response.body →
        er.statusCode = 500)
    ∧ ((cotacaoHandler cfg env).response.status = some 200
        ∨ (cotacaoHandler cfg env).response.status = some 500)
    ∧ ((cotacaoHandler cfg env).response.status = some 500 →
        ∃ er, (cotacaoHandler cfg env).response.body = [.errorBody er]
          ∧ er.statusCode = 500) := by
  refine ⟨?_, ?_, ?_, ?_, ?_, ?_, ?_, ?_, ?_, ?_, ?_⟩
  · intro w msg code
    obtain ⟨st, b⟩ := w
    cases st <;> rfl
  · intro w msg code h
    simp [sendMsgError, ResponseWriter.writeHeader, ResponseWriter.writeJSON, h]
  · intro e he
    simp [cotacaoHandler, he, sendMsgError, ResponseWriter.fresh, ResponseWriter.writeHeader,
      ResponseWriter.writeJSON]
  · intro err hreq hfetch
    simp [cotacaoHandler, hreq, hfetch, sendMsgError, ResponseWriter.fresh,
      ResponseWriter.writeHeader, ResponseWriter.writeJSON]
  · intro body e hreq hfetch hdec
    simp [cotacaoHandler, hreq, hfetch, hdec, sendMsgError, ResponseWriter.fresh,
      ResponseWriter.writeHeader, ResponseWriter.writeJSON]
  · intro body cotacao e hreq hfetch hdec hprep
    simp [cotacaoHandler, hreq, hfetch, hdec, saveQuotationToDB, hprep, sendMsgError,
      ResponseWriter.fresh, ResponseWriter.writeHeader, ResponseWriter.writeJSON]
  · intro body cotacao e hreq hfetch hdec hprep hexec
    simp [cotacaoHandler, hreq, hfetch, hdec, saveQuotationToDB, hprep, hexec, sendMsgError,
      ResponseWriter.fresh, ResponseWriter.writeHeader, ResponseWriter.writeJSON]
  · intro body cotacao e hreq hfetch hdec hprep hexec henc
    simp [cotacaoHandler, hreq, hfetch, hdec, saveQuotationToDB, hprep, hexec, henc,
      sendMsgError, ResponseWriter.fresh, ResponseWriter.writeHeader, ResponseWriter.writeJSON]
  · intro er hm
    rcases handler_response_shape cfg env with ⟨msg, h⟩ | ⟨msg, h⟩ | ⟨b, h⟩ <;>
      rw [h] at hm <;> simp at hm <;> simp [hm]
  · rcases handler_response_shape cfg env with ⟨msg, h⟩ | ⟨msg, h⟩ | ⟨b, h⟩ <;> rw [h] <;> simp
  · intro hs
    rcases handler_response_shape cfg env with ⟨msg, h⟩ | ⟨msg, h⟩ | ⟨b, h⟩ <;>
      rw [h] at hs ⊢ <;> simp_all

/-- Witness for the amended C6: the request-creation failure path sends
HTTP status 500 with exactly one mirrored ErrorResponse body. -/
theorem error_responses_uniform_witness :
    (cotacaoHandler cfgDefault envReqCreateFail).response
        = ⟨some 500, [.errorBody ⟨"GET /cotacao - falha ao criar requisi????o: "
            ++ "parse error", 500⟩]⟩ :=
  (error_responses_uniform cfgDefault envReqCreateFail).2.2.1 "parse error" rfl

/-- Claim C7: on any non-200 server response whose body decodes as an
ErrorResponse, the client made exactly one request, left the file alone,
and terminated through log.Fatalf — a non-zero exit — reporting exactly
the embedded message and status code. -/
theorem client_error_exit (cfg : ClientConfig) (env : ClientEnv) (status : Int)
    (body : Except String Json) (er : ErrorResponse)
    (hreq : env.newRequestErr = none)
    (htr : env.transport = .response status body)
    (hstatus : status ≠ 200)
    (hdec : decodeBody decodeErrorResponse body = .ok er) :
    makeRequest cfg env =
      ⟨1, env.file, .fatal ("Ocorreu um erro: " ++ er.error ++ "\nCódigo: "
          ++ toString er.statusCode ++ "\n")⟩
    ∧ (makeRequest cfg env).exit.exitCode ≠ 0 := by
  have hb : (status == 200) = false := by
    simp [hstatus]
  constructor
  · simp [makeRequest, hreq, htr, hb, handleError, hdec]
  · simp [makeRequest, hreq, htr, hb, handleError, hdec, ClientExit.exitCode]

/-- Witness for C7: a 500 ErrorResponse with message boom. -/
theorem client_error_exit_witness :
    makeRequest ⟨200000000⟩ envClientError =
      ⟨1, envClientError.file, .fatal ("Ocorreu um erro: " ++ "boom" ++ "\nCódigo: "
          ++ toString (500 : Int) ++ "\n")⟩
    ∧ (makeRequest ⟨200000000⟩ envClientError).exit.exitCode ≠ 0 :=
  client_error_exit ⟨200000000⟩ envClientError 500
    (.ok (.obj [("error", .str "boom"), ("status_code", .num 500)])) ⟨"boom", 500⟩
    rfl rfl (by decide) rfl

/-- Claim C8: on a 200 response whose body decodes as a QuotationResponse,
the client appends exactly one line, the fixed label followed by the bid,
to cotacao.txt — creating the file when absent and appending, never
truncating, when present — and exits normally. -/
theorem client_appends_bid (cfg : ClientConfig) (env : ClientEnv)
    (body : Except String Json) (q : QuotationResponse)
    (hreq : env.newRequestErr = none)
    (htr : env.transport = .response 200 body)
    (hdec : decodeBody decodeQuotationResponse body = .ok q)
    (hopen : env.openErr = none)
    (hwrite : env.writeErr = none) :
    makeRequest cfg env = ⟨1, some (env.file.getD [] ++ ["Dólar: " ++ q.bid]), .normal⟩
    ∧ (env.file = none → (makeRequest cfg env).file = some ["Dólar: " ++ q.bid])
    ∧ (∀ ls, env.file = some ls →
        (makeRequest cfg env).file = some (ls ++ ["Dólar: " ++ q.bid])) := by
  have h1 : makeRequest cfg env
      = ⟨1, some (env.file.getD [] ++ ["Dólar: " ++ q.bid]), .normal⟩ := by
    simp [makeRequest, hreq, htr, saveQuotationToFile, hdec, hopen, hwrite]
  refine ⟨h1, ?_, ?_⟩
  · intro hf
    rw [h1]
    simp [hf]
  · intro ls hf
    rw [h1]
    simp [hf]

/-- Witness for C8: a bid of 5.45 appended after an existing line. -/
theorem client_appends_bid_witness :
    makeRequest ⟨200000000⟩ envClientOk
      = ⟨1, some (envClientOk.file.getD [] ++ ["Dólar: " ++ "5.45"]), .normal⟩
    ∧ (envClientOk.file = none → (makeRequest ⟨200000000⟩ envClientOk).file
        = some ["Dólar: " ++ "5.45"])
    ∧ (∀ ls, envClientOk.file = some ls →
        (makeRequest ⟨200000000⟩ envClientOk).file = some (ls ++ ["Dólar: " ++ "5.45"])) :=
  client_appends_bid ⟨200000000⟩ envClientOk (.ok (.obj [("bid", .str "5.45")])) ⟨"5.45"⟩
    rfl rfl rfl rfl rfl

/-- Claim C9: the schema bootstrap is idempotent — running the CREATE TABLE
IF NOT EXISTS step when the cotacao table already exists leaves the store
unchanged, and running startDatabase twice equals running it once, so
repeated startup neither fails nor duplicates the table. -/
theorem schema_bootstrap_idempotent (s : DBState) :
    ((s.tables.any fun t => t.fst == "cotacao") = true → startDatabase s = s)
    ∧ startDatabase (startDatabase s) = startDatabase s := by
  constructor
  · intro h
    simp [startDatabase, createTableIfNotExists, h]
  · by_cases h : (s.tables.any fun t => t.fst == "cotacao") = true
    · simp [startDatabase, createTableIfNotExists, h]
    · simp [startDatabase, createTableIfNotExists, h]

/-- Witness for C9: bootstrapping a store that already holds the table. -/
theorem schema_bootstrap_idempotent_witness :
    startDatabase dbWithCotacao = dbWithCotacao :=
  (schema_bootstrap_idempotent dbWithCotacao).1 (by decide)

/-- Folding an object none of whose keys matches USDBRL leaves the
quotation untouched. -/
theorem decodeUSDBRLObj_no_match (q : Quotation) (fs : List (String × Json))
    (h : ∀ p ∈ fs, jsonKeyMatches p.fst "USDBRL" = false) :
    decodeUSDBRLObj q fs = .ok q := by
  induction fs with
  | nil => rfl
  | cons p rest ih =>
    obtain ⟨k, v⟩ := p
    have hk : jsonKeyMatches k "USDBRL" = false := h ⟨k, v⟩ (List.mem_cons_self _ _)
    simp [decodeUSDBRLObj, hk]
    exact ih fun p hp => h p (List.mem_cons_of_mem _ hp)

/-- Counterexample to C10 as stated: the decode-failure branch also fires
on a body that is syntactically valid JSON — here the JSON string 5.45,
which json.Decoder parses but cannot unmarshal into the struct — not only
on malformed JSON.  No persistence is attempted. -/
theorem decode_branch_fires_on_valid_json :
    (cotacaoHandler cfgDefault envNonObjectBody).response
        = ⟨some 500, [.errorBody ⟨"GET /cotacao - falha ao decodificar corpo da requisi????o: json: cannot unmarshal value into Go struct USDBRLQuotation", 500⟩]⟩
    ∧ (cotacaoHandler cfgDefault envNonObjectBody).save = none := by
  decide

/-- Claim C10 as amended: missing fields never trigger the decode-failure
branch (though valid JSON of the wrong shape, such as a non-object, does):
for every upstream 200 body that is a valid JSON object with no key
matching USDBRL, decoding succeeds with the all-empty quotation, the
server persists a row of eleven empty strings, and responds 200 with an
empty bid. -/
theorem missing_fields_decode_empty (cfg : Config) (env : ServerEnv)
    (fs : List (String × Json))
    (hreq : env.newRequestErr = none)
    (hfetch : env.fetch = .success (.ok (.obj fs)))
    (hkeys : ∀ p ∈ fs, jsonKeyMatches p.fst "USDBRL" = false)
    (hprep : env.prepareErr = none)
    (hexec : env.execErr = none)
    (henc : env.encodeErr = none) :
    decodeBody decodeUSDBRL (.ok (.obj fs)) = .ok Quotation.empty
    ∧ (cotacaoHandler cfg env).save =
        some ⟨some (ctxWithTimeout env.inboundDeadline env.nowDB cfg.databaseTimeout),
          [["", "", "", "", "", "", "", "", "", "", ""]], none⟩
    ∧ (cotacaoHandler cfg env).response = ⟨some 200, [.quotationBody ⟨""⟩]⟩ := by
  have hdec : decodeBody decodeUSDBRL (.ok (.obj fs)) = .ok Quotation.empty := by
    simp [decodeBody, decodeUSDBRL, decodeUSDBRLObj_no_match Quotation.empty fs hkeys]
  refine ⟨hdec, ?_, ?_⟩ <;>
    simp [cotacaoHandler, hreq, hfetch, hdec, saveQuotationToDB, hprep, hexec, henc,
      Quotation.empty, ResponseWriter.fresh, ResponseWriter.writeHeader,
      ResponseWriter.writeJSON]

/-- Witness for the amended C10: the empty JSON object body. -/
theorem missing_fields_decode_empty_witness :
    decodeBody decodeUSDBRL (.ok (.obj [])) = .ok Quotation.empty
    ∧ (cotacaoHandler cfgDefault envEmptyObject).save =
        some ⟨some (ctxWithTimeout envEmptyObject.inboundDeadline envEmptyObject.nowDB
            cfgDefault.databaseTimeout),
          [["", "", "", "", "", "", "", "", "", "", ""]], none⟩
    ∧ (cotacaoHandler cfgDefault envEmptyObject).response
        = ⟨some 200, [.quotationBody ⟨""⟩]⟩ :=
  missing_fields_decode_empty cfgDefault envEmptyObject [] rfl rfl (by simp) rfl rfl rfl

end GoxpCotacao
